import Mathlib

/-!
Verification development for the opencdms-api pygeoapi layer
(`opencdms_api/pygeoapi/api.py`).  The Python code is shallowly embedded:
pure helpers become Lean functions, the request handlers become functions
from an explicit configuration, request and environment (the external
collaborators: provider plugins, bbox and datetime validators, the CQL
text reader, localisation and template rendering) to an explicit result
value.  Exceptions are represented with `Except`; an exception that the
Python code would not catch is modelled by a dedicated `raised`
constructor carrying the exception name.
-/

namespace OpencdmsApi

/-! ## Byte level percent encoding

The query string suffix built at api.py lines 846-852 uses
`urllib.parse.quote(k, safe="")` for keys and
`urllib.parse.quote(str(v), safe=",")` for values.  `quote` operates on
the UTF-8 bytes of its argument, so the machinery is modelled on lists
of bytes (natural numbers below 256).  `quote` leaves the unreserved
bytes (ASCII letters, digits, `_`, `.`, `-`, `~`) and the bytes of the
`safe` argument as they are and writes every other byte as a percent
sign followed by two uppercase hex digits. -/

/-- Modelled from the spec: the always-safe byte set of
`urllib.parse.quote` (ASCII letters, digits and `_.-~`). -/
def isUnreservedByte (b : Nat) : Bool :=
  (65 ≤ b && b ≤ 90) || (97 ≤ b && b ≤ 122) || (48 ≤ b && b ≤ 57) ||
  b == 95 || b == 46 || b == 45 || b == 126

/-- Uppercase hexadecimal digit of a value below 16, as a byte. -/
def hexDigit (n : Nat) : Nat :=
  if n < 10 then 48 + n else 65 + (n - 10)

/-- Modelled from the spec: how `urllib.parse.quote` writes one byte,
given the extra safe bytes. -/
def quoteByte (safe : List Nat) (b : Nat) : List Nat :=
  if isUnreservedByte b || safe.contains b then [b]
  else [37, hexDigit (b / 16), hexDigit (b % 16)]

/-- Modelled from the spec: `urllib.parse.quote` over the bytes of a
string. -/
def pctQuote (safe : List Nat) (s : List Nat) : List Nat :=
  (s.map (quoteByte safe)).flatten

/-- Bytes of the string `"f"`. -/
def fBytes : List Nat := [102]

/-- Bytes of the string `"offset"`. -/
def offsetBytes : List Nat := [111, 102, 102, 115, 101, 116]

/-- The query string suffix of api.py lines 846-852: every request
parameter whose key is neither `f` nor `offset` contributes
an ampersand, the strictly quoted key, an equals sign and the value
quoted with comma kept safe. -/
def serializedQueryParamsBytes : List (List Nat × List Nat) → List Nat
  | [] => []
  | (k, v) :: rest =>
    (if k = fBytes ∨ k = offsetBytes then []
     else 38 :: pctQuote [] k ++ 61 :: pctQuote [44] v) ++
    serializedQueryParamsBytes rest

/-! ### The re-parsing side (stated by the spec round-trip property) -/

/-- Split a byte list on a separator byte; always returns at least one
segment. -/
def splitOnByte (sep : Nat) : List Nat → List (List Nat)
  | [] => [[]]
  | b :: rest =>
    match splitOnByte sep rest with
    | [] => [[]]
    | seg :: segs => if b = sep then [] :: seg :: segs else (b :: seg) :: segs

/-- Value of a hexadecimal digit byte, if it is one. -/
def hexVal (b : Nat) : Option Nat :=
  if 48 ≤ b && b ≤ 57 then some (b - 48)
  else if 65 ≤ b && b ≤ 70 then some (b - 65 + 10)
  else if 97 ≤ b && b ≤ 102 then some (b - 97 + 10)
  else none

/-- Percent-decoding of a byte list: a percent byte followed by two hex
digits becomes the encoded byte, everything else passes through. -/
def pctDecode : List Nat → List Nat
  | [] => []
  | b :: rest =>
    if b = 37 then
      match _hr : rest with
      | h :: l :: rest2 =>
        match hexVal h, hexVal l with
        | some hv, some lv => (hv * 16 + lv) :: pctDecode rest2
        | _, _ => b :: pctDecode rest
      | _ => b :: pctDecode rest
    else b :: pctDecode rest
termination_by s => s.length
decreasing_by all_goals simp_all [List.length_cons] <;> omega

/-- Split a query string segment at the first equals sign. -/
def splitKV : List Nat → List Nat × List Nat
  | [] => ([], [])
  | b :: rest =>
    if b = 61 then ([], rest)
    else
      let p := splitKV rest
      (b :: p.1, p.2)

/-- Parse a query string at the byte level: split on ampersands, drop
empty segments, split each segment at its first equals sign and
percent-decode both sides. -/
def parseQS (s : List Nat) : List (List Nat × List Nat) :=
  ((splitOnByte 38 s).filter (fun seg => ¬ seg = [])).map
    (fun seg => (pctDecode (splitKV seg).1, pctDecode (splitKV seg).2))

/-! ### Round-trip lemmas -/

theorem splitOnByte_ne_nil (sep : Nat) (s : List Nat) :
    splitOnByte sep s ≠ [] := by
  cases s with
  | nil => simp [splitOnByte]
  | cons b rest =>
    simp only [splitOnByte]
    cases h : splitOnByte sep rest with
    | nil => simp
    | cons seg segs =>
      by_cases hb : b = sep <;> simp [hb]

theorem hexVal_hexDigit (n : Nat) (h : n < 16) :
    hexVal (hexDigit n) = some n := by
  interval_cases n <;> decide

theorem isUnreservedByte_ne (b : Nat) (h : isUnreservedByte b = true) :
    b ≠ 37 ∧ b ≠ 38 ∧ b ≠ 61 := by
  simp only [isUnreservedByte, Bool.or_eq_true, Bool.and_eq_true,
    decide_eq_true_eq, beq_iff_eq] at h
  omega

theorem pctDecode_cons_ne (b : Nat) (rest : List Nat) (h : b ≠ 37) :
    pctDecode (b :: rest) = b :: pctDecode rest := by
  rw [pctDecode.eq_def]
  simp [h]

/-- Decoding inverts quoting, for a safe set that avoids the percent
byte. -/
theorem pctDecode_pctQuote (safe : List Nat) (hsafe : ¬ 37 ∈ safe)
    (s : List Nat) (hs : ∀ b ∈ s, b < 256) :
    pctDecode (pctQuote safe s) = s := by
  induction s with
  | nil =>
    show pctDecode [] = []
    rw [pctDecode.eq_def]
  | cons b rest ih =>
    have hb : b < 256 := hs b (by simp)
    have hrest : ∀ x ∈ rest, x < 256 := fun x hx => hs x (by simp [hx])
    show pctDecode (quoteByte safe b ++ pctQuote safe rest) = b :: rest
    by_cases hq : (isUnreservedByte b || safe.contains b) = true
    · have hb37 : b ≠ 37 := by
        rcases Bool.or_eq_true_iff.mp hq with h1 | h1
        · exact (isUnreservedByte_ne b h1).1
        · intro hbe; exact hsafe (by simpa [hbe] using List.mem_of_elem_eq_true h1)
      rw [quoteByte, if_pos hq, List.singleton_append,
        pctDecode_cons_ne b _ hb37, ih hrest]
    · rw [quoteByte, if_neg hq]
      have hhi : b / 16 < 16 := by omega
      have hlo : b % 16 < 16 := by omega
      have hstep :
          pctDecode (37 :: hexDigit (b / 16) :: hexDigit (b % 16) ::
              pctQuote safe rest) =
            (b / 16 * 16 + b % 16) :: pctDecode (pctQuote safe rest) := by
        rw [pctDecode.eq_def]
        simp [hexVal_hexDigit _ hhi, hexVal_hexDigit _ hlo]
      simp only [List.cons_append, List.nil_append]
      rw [hstep, ih hrest]
      congr 1
      omega

/-- Every byte of a quoted string is unreserved, safe, the percent byte
or an uppercase hex digit. -/
theorem mem_pctQuote (safe : List Nat) (s : List Nat)
    (hs : ∀ b ∈ s, b < 256) (x : Nat) (hx : x ∈ pctQuote safe s) :
    isUnreservedByte x = true ∨ x ∈ safe ∨ x = 37 ∨
      (48 ≤ x ∧ x ≤ 57) ∨ (65 ≤ x ∧ x ≤ 70) := by
  induction s with
  | nil => simp [pctQuote] at hx
  | cons b rest ih =>
    have hb : b < 256 := hs b (by simp)
    have hrest : ∀ y ∈ rest, y < 256 := fun y hy => hs y (by simp [hy])
    have hx2 : x ∈ quoteByte safe b ++ pctQuote safe rest := hx
    rcases List.mem_append.mp hx2 with hx3 | hx3
    · unfold quoteByte at hx3
      by_cases hq : (isUnreservedByte b || safe.contains b) = true
      · rw [if_pos hq] at hx3
        simp only [List.mem_singleton] at hx3
        subst hx3
        rcases Bool.or_eq_true_iff.mp hq with h1 | h1
        · exact Or.inl h1
        · exact Or.inr (Or.inl (List.mem_of_elem_eq_true h1))
      · rw [if_neg hq] at hx3
        have hhi : b / 16 < 16 := by omega
        have hlo : b % 16 < 16 := by omega
        simp only [List.mem_cons, List.not_mem_nil, or_false] at hx3
        rcases hx3 with hx3 | hx3 | hx3
        · exact Or.inr (Or.inr (Or.inl hx3))
        · subst hx3
          unfold hexDigit
          by_cases hlt : b / 16 < 10
          · rw [if_pos hlt]; omega
          · rw [if_neg hlt]; omega
        · subst hx3
          unfold hexDigit
          by_cases hlt : b % 16 < 10
          · rw [if_pos hlt]; omega
          · rw [if_neg hlt]; omega
    · exact ih hrest hx3

theorem pctQuote_key_no_sep (k : List Nat) (hk : ∀ b ∈ k, b < 256) (x : Nat)
    (hx : x ∈ pctQuote [] k) : x ≠ 38 ∧ x ≠ 61 := by
  rcases mem_pctQuote [] k hk x hx with h | h | h | h | h
  · have := isUnreservedByte_ne x h
    exact ⟨this.2.1, this.2.2⟩
  · simp at h
  · omega
  · omega
  · omega

theorem pctQuote_val_no_sep (v : List Nat) (hv : ∀ b ∈ v, b < 256) (x : Nat)
    (hx : x ∈ pctQuote [44] v) : x ≠ 38 ∧ x ≠ 61 := by
  rcases mem_pctQuote [44] v hv x hx with h | h | h | h | h
  · have := isUnreservedByte_ne x h
    exact ⟨this.2.1, this.2.2⟩
  · simp at h; omega
  · omega
  · omega
  · omega

/-- Splitting a concatenation whose prefix avoids the separator extends
the first segment of the split of the tail. -/
theorem splitOnByte_append_no_sep (sep : Nat) (pre : List Nat)
    (hpre : ∀ x ∈ pre, x ≠ sep) (t : List Nat) (seg : List Nat)
    (segs : List (List Nat)) (ht : splitOnByte sep t = seg :: segs) :
    splitOnByte sep (pre ++ t) = (pre ++ seg) :: segs := by
  induction pre with
  | nil => simpa using ht
  | cons b rest ih =>
    have hb : b ≠ sep := hpre b (by simp)
    have hrest : ∀ x ∈ rest, x ≠ sep := fun x hx => hpre x (by simp [hx])
    show splitOnByte sep (b :: (rest ++ t)) = (b :: (rest ++ seg)) :: segs
    rw [splitOnByte, ih hrest]
    simp [hb]

theorem splitKV_append (k v : List Nat) (hk : ∀ x ∈ k, x ≠ 61) :
    splitKV (k ++ 61 :: v) = (k, v) := by
  induction k with
  | nil => simp [splitKV]
  | cons b rest ih =>
    have hb : b ≠ 61 := hk b (by simp)
    have hrest : ∀ x ∈ rest, x ≠ 61 := fun x hx => hk x (by simp [hx])
    show splitKV (b :: (rest ++ 61 :: v)) = (b :: rest, v)
    rw [splitKV]
    simp only [if_neg hb]
    rw [ih hrest]

/-- The serialized suffix is empty or starts with an ampersand. -/
theorem serialized_shape (ps : List (List Nat × List Nat)) :
    serializedQueryParamsBytes ps = [] ∨
      ∃ t, serializedQueryParamsBytes ps = 38 :: t := by
  induction ps with
  | nil => exact Or.inl rfl
  | cons kv rest ih =>
    obtain ⟨k, v⟩ := kv
    by_cases h : k = fBytes ∨ k = offsetBytes
    · simpa [serializedQueryParamsBytes, h] using ih
    · refine Or.inr ⟨pctQuote [] k ++ 61 :: (pctQuote [44] v ++
        serializedQueryParamsBytes rest), ?_⟩
      simp [serializedQueryParamsBytes, h]

theorem splitOnByte_serialized_head (ps : List (List Nat × List Nat)) :
    ∃ segs, splitOnByte 38 (serializedQueryParamsBytes ps) = [] :: segs := by
  rcases serialized_shape ps with h | ⟨t, h⟩
  · exact ⟨[], by simp [h, splitOnByte]⟩
  · rw [h]
    simp only [splitOnByte]
    cases hs : splitOnByte 38 t with
    | nil => exact absurd hs (splitOnByte_ne_nil 38 t)
    | cons seg segs => exact ⟨seg :: segs, by simp⟩

/-- C2: the query string suffix appended to every generated link is
built from the request parameters with exactly `f` and `offset`
excluded, keys quoted with no safe characters and values quoted with
comma kept safe, and re-parsing the suffix reproduces exactly the
original parameters other than `f` and `offset`. -/
theorem parseQS_serialized (ps : List (List Nat × List Nat))
    (hps : ∀ kv ∈ ps, (∀ b ∈ kv.1, b < 256) ∧ (∀ b ∈ kv.2, b < 256)) :
    parseQS (serializedQueryParamsBytes ps) =
      ps.filter (fun kv =>
        if kv.1 = fBytes ∨ kv.1 = offsetBytes then false else true) := by
  induction ps with
  | nil => rfl
  | cons kv rest ih =>
    obtain ⟨k, v⟩ := kv
    have hk : ∀ b ∈ k, b < 256 := (hps (k, v) (by simp)).1
    have hv : ∀ b ∈ v, b < 256 := (hps (k, v) (by simp)).2
    have hrest : ∀ kv ∈ rest, (∀ b ∈ kv.1, b < 256) ∧ (∀ b ∈ kv.2, b < 256) :=
      fun kv hkv => hps kv (by simp [hkv])
    by_cases hex : k = fBytes ∨ k = offsetBytes
    · have h1 : serializedQueryParamsBytes ((k, v) :: rest) =
          serializedQueryParamsBytes rest := by
        simp [serializedQueryParamsBytes, hex]
      rw [h1, ih hrest, List.filter_cons]
      simp [hex]
    · have hQk : ∀ x ∈ pctQuote [] k, x ≠ 61 :=
        fun x hx => (pctQuote_key_no_sep k hk x hx).2
      have hpre38 : ∀ x ∈ (pctQuote [] k ++ 61 :: pctQuote [44] v), x ≠ 38 := by
        intro x hx
        rcases List.mem_append.mp hx with h1 | h1
        · exact (pctQuote_key_no_sep k hk x h1).1
        · rcases List.mem_cons.mp h1 with h2 | h2
          · omega
          · exact (pctQuote_val_no_sep v hv x h2).1
      obtain ⟨segs, hsegs⟩ := splitOnByte_serialized_head rest
      have hsplitX := splitOnByte_append_no_sep 38
        (pctQuote [] k ++ 61 :: pctQuote [44] v) hpre38
        (serializedQueryParamsBytes rest) [] segs hsegs
      have hserial : serializedQueryParamsBytes ((k, v) :: rest) =
          38 :: ((pctQuote [] k ++ 61 :: pctQuote [44] v) ++
            serializedQueryParamsBytes rest) := by
        simp [serializedQueryParamsBytes, hex]
      have hsplitAll : splitOnByte 38 (serializedQueryParamsBytes ((k, v) :: rest)) =
          [] :: (pctQuote [] k ++ 61 :: pctQuote [44] v) :: segs := by
        rw [hserial, splitOnByte, hsplitX]
        simp
      have hpreNe : ¬ (pctQuote [] k ++ 61 :: pctQuote [44] v) = [] := by
        cases hq : pctQuote [] k <;> simp [hq]
      have hkv : splitKV (pctQuote [] k ++ 61 :: pctQuote [44] v) =
          (pctQuote [] k, pctQuote [44] v) := splitKV_append _ _ hQk
      have ihq := ih hrest
      unfold parseQS at ihq
      rw [hsegs] at ihq
      unfold parseQS
      rw [hsplitAll]
      simp only [List.filter_cons] at ihq ⊢
      have hkeep : (decide ¬(pctQuote [] k ++ 61 :: pctQuote [44] v) = []) = true := by
        simp [hpreNe]
      have hcF : ¬ ((decide ¬True) = true) := by simp
      rw [if_neg hcF] at ihq
      rw [if_neg hcF, if_pos hkeep]
      simp only [List.map_cons, hkv]
      rw [pctDecode_pctQuote [] (by simp) k hk,
        pctDecode_pctQuote [44] (by simp) v hv, ihq]
      rw [if_pos (by rw [if_neg hex] :
        (if k = fBytes ∨ k = offsetBytes then false else true) = true)]

/-! ## Strings as bytes

The request handlers work on Lean strings; the query string suffix is
obtained by encoding the parameters as UTF-8 bytes, applying the byte
level serializer above and reading the (all ASCII) result back. -/

/-- UTF-8 bytes of one character. -/
def utf8Bytes (c : Char) : List Nat :=
  let n := c.toNat
  if n < 128 then [n]
  else if n < 2048 then [192 + n / 64, 128 + n % 64]
  else if n < 65536 then
    [224 + n / 4096, 128 + (n / 64) % 64, 128 + n % 64]
  else
    [240 + n / 262144, 128 + (n / 4096) % 64, 128 + (n / 64) % 64,
      128 + n % 64]

/-- UTF-8 bytes of a string. -/
def strBytes (s : String) : List Nat :=
  (s.data.map utf8Bytes).flatten

/-- String formed from a list of ASCII bytes. -/
def asciiOfBytes (bs : List Nat) : String :=
  String.mk (bs.map Char.ofNat)

/-- The query string suffix of api.py lines 846-852 at the string
level. -/
def serializedQueryParams (params : List (String × String)) : String :=
  asciiOfBytes (serializedQueryParamsBytes
    (params.map (fun kv => (strBytes kv.1, strBytes kv.2))))

/-! ## Data model

Configuration, request and provider values as the handlers see them.
Python dictionaries are modelled as association lists looked up by first
match; localizable values are plain strings passed through the
`translate` collaborator. -/

/-- Output format descriptor of a provider binding. -/
structure ProviderFormat where
  name : String
  mimetype : String
deriving DecidableEq

/-- One entry of the `providers` list of a collection configuration. -/
structure ProviderDef where
  ptype : String
  name : String
  default : Bool
  pformat : Option ProviderFormat
deriving DecidableEq

/-- A link object, as produced in response documents and as stored in
the configuration. -/
structure Link where
  ltype : String
  rel : String
  title : String
  href : String
  hreflang : Option String
deriving DecidableEq

/-- Spatial bbox of a configured extent: either a single bbox or a list
of bboxes (api.py lines 103-107 wrap a single one in an array). -/
inductive ConfBbox where
  | single (b : List Rat)
  | multi (bs : List (List Rat))
deriving DecidableEq

/-- Spatial part of a configured extent. -/
structure SpatialExtent where
  bbox : ConfBbox
  crs : Option String
deriving DecidableEq

/-- Temporal part of a configured extent; instants are carried as
strings. -/
structure TemporalExtent where
  tbegin : Option String
  tend : Option String
  trs : Option String
deriving DecidableEq

/-- Configured extents of a collection. -/
structure Extents where
  spatial : SpatialExtent
  temporal : Option TemporalExtent
deriving DecidableEq

/-- One resource of the configuration (the values of
`config.resources`). -/
structure Resource where
  rtype : String
  title : String
  description : String
  keywords : List String
  providers : List ProviderDef
  extents : Option Extents
  links : List Link
  visibility : Option String
deriving DecidableEq

/-- Server configuration as used by the handlers. -/
structure Config where
  serverUrl : String
  serverLimit : Int
  resources : List (String × Resource)

/-- An already pre-processed API request: parameters, negotiated format,
locales and the format validity flag checked first by every handler. -/
structure Request where
  params : List (String × String)
  format : String
  locale : String
  rawLocale : String
  valid : Bool

/-- Field description exposed by a provider (`p.fields` values). -/
structure FieldInfo where
  ftype : String
  values : Option (List String)
deriving DecidableEq

/-- One sort criterion handed to the provider. -/
structure SortSpec where
  property : String
  order : String
deriving DecidableEq

/-- A parsed CQL filter, carried opaquely from the external parse
function to the provider. -/
structure CqlFilter where
  ast : String
deriving DecidableEq

/-- One feature of a query result. -/
structure Feature where
  id : String
  properties : List (String × String)
deriving DecidableEq

/-- The items response content: what the provider query returns plus the
links and timestamp added by the handler. -/
structure ItemsBody where
  features : List Feature
  numberMatched : Option Nat
  links : List Link
  timeStamp : Option String
deriving DecidableEq

/-- Arguments of `p.query` at api.py lines 812-826. -/
structure QueryArgs where
  offset : Int
  limit : Int
  resulttype : String
  bbox : List Rat
  datetime_ : Option String
  properties : List (String × String)
  sortby : List SortSpec
  select_properties : List String
  skip_geometry : Bool
  q : Option String
  language : Option String
  filterq : Option CqlFilter

/-- Errors raised by `load_plugin` and `get_provider_by_type`. -/
inductive LoadErr where
  | typeErr
  | connErr
  | queryErr
  | genericErr
deriving DecidableEq

/-- Errors raised by a provider query. -/
inductive ProviderErr where
  | connErr
  | queryErr
  | genericErr
deriving DecidableEq

/-- An EDR parameter field (`p.get_fields()` entries). -/
structure EdrField where
  id : String
deriving DecidableEq

/-- A loaded provider plugin: the attributes the handlers read plus the
query operation. -/
structure Provider where
  fields : List (String × FieldInfo)
  properties : List String
  spatial : Bool
  id_field : String
  uri_field : Option String
  title_field : Option String
  filename : Option String
  crs : String
  domainset : String
  rangetype : String
  edrParameters : List EdrField
  queryTypes : List String
  query : QueryArgs → Except ProviderErr ItemsBody

/-- Queryable property entries of the queryables document. -/
inductive QueryableProp where
  | ref (url : String)
  | field (title : String) (ftype : String) (enumVals : Option (List String))
deriving DecidableEq

/-- The queryables document built at api.py lines 529-555. -/
structure QueryablesDoc where
  qtype : String
  title : String
  properties : List (String × QueryableProp)
  schema : String
  id : String
deriving DecidableEq

/-- Extended coverage metadata attached when a coverage collection is
described individually (api.py lines 331-334). -/
structure CoverageMeta where
  crs : List String
  domainset : String
  rangetype : String
deriving DecidableEq

/-- Temporal part of an extent as output. -/
structure TemporalDoc where
  interval : String × String
  trs : Option String
deriving DecidableEq

/-- Extent object as output (api.py lines 101-121). -/
structure ExtentDoc where
  bbox : List (List Rat)
  crs : Option String
  temporal : Option TemporalDoc
deriving DecidableEq

/-- One collection description built by the loop of
`describe_collections`. -/
structure CollectionDoc where
  id : String
  title : String
  description : String
  keywords : List String
  links : List Link
  extent : Option ExtentDoc
  itemType : Option String
  coverageMeta : Option CoverageMeta
  parameterNames : Option (List (String × EdrField))
deriving DecidableEq

/-- External collaborators of the handlers, exactly the interfaces named
out of scope by the spec: validators, the CQL text reader, plugin
loading, localisation, rendering and the clock. -/
structure Env where
  validateBbox : String → Except String (List Rat)
  validateDatetime : Extents → Option String → Except String (Option String)
  parseEcql : String → Option CqlFilter
  loadPlugin : ProviderDef → Except LoadErr Provider
  getPluginLocale : ProviderDef → String → Option String
  translate : String → String → String
  now : String
  renderItemsHtml : ItemsBody → String
  renderDescribeHtml : List CollectionDoc → List Link → String
  renderSingleHtml : CollectionDoc → String
  renderQueryablesHtml : QueryablesDoc → String
  geojson2jsonld : ItemsBody → String → String → String
  jsonldifySingle : CollectionDoc → String → String
  jsonldifyList : List CollectionDoc → String → String
  csvWrite : ItemsBody → ProviderDef → Except Unit String

/-! ## Shared helpers -/

/-- Format keys of pygeoapi. -/
def F_JSON : String := "json"

/-- Format key of JSON-LD. -/
def F_JSONLD : String := "jsonld"

/-- Format key of HTML. -/
def F_HTML : String := "html"

/-- Modelled from the spec: the pygeoapi `FORMAT_TYPES` mapping from
format key to media type. -/
def FORMAT_TYPES (f : String) : String :=
  if f = F_HTML then "text/html"
  else if f = F_JSONLD then "application/ld+json"
  else if f = F_JSON then "application/json"
  else ""

/-- Base for OGC relation types. -/
def OGC_RELTYPES_BASE : String := "http://www.opengis.net/def/rel/ogc/1.0"

/-- Modelled from the spec: `request.get_linkrel`, `self` for the
negotiated format and `alternate` otherwise. -/
def get_linkrel (req : Request) (f : String) : String :=
  if f = req.format then "self" else "alternate"

/-- The collections URL (`get_collections_url`): server url plus
`/collections`. -/
def get_collections_url (cfg : Config) : String :=
  cfg.serverUrl ++ "/collections"

/-- First value of a request parameter (`request.params.get`). -/
def lookupStr (params : List (String × String)) (k : String) : Option String :=
  (params.find? (fun kv => kv.1 == k)).map (fun kv => kv.2)

/-- Modelled from the spec: conversion of a string by the Python `int`
builtin; whitespace is stripped, an optional sign precedes decimal
digits. -/
def pyIntParse (s : String) : Option Int :=
  let t := ((s.data.dropWhile (fun c => c = ' ')).reverse.dropWhile
    (fun c => c = ' ')).reverse
  let signed : Option (Int × List Char) :=
    match t with
    | [] => none
    | c :: rest =>
      if c = '-' then some (-1, rest)
      else if c = '+' then some (1, rest)
      else some (1, c :: rest)
  match signed with
  | none => none
  | some (sign, digits) =>
    if digits = [] ∨ ¬ digits.all (fun c => c.isDigit) then none
    else some (sign * (digits.foldl (fun a c => a * 10 + (c.toNat - 48)) 0 : Nat))

/-- Modelled from the spec: the pygeoapi `str2bool` helper. -/
def str2bool (s : String) : Bool :=
  s.toLower ∈ [("yes"), ("true"), ("t"), ("1"), ("on")]

/-- Modelled from the spec: `get_provider_by_type` returns the first
binding of the requested capability and raises `ProviderTypeError`
(modelled as `none`) when there is none. -/
def get_provider_by_type (providers : List ProviderDef) (t : String) :
    Option ProviderDef :=
  providers.find? (fun p => p.ptype == t)

/-- Modelled from the spec: `get_provider_default` returns the binding
marked default, else the first one; an empty list raises `IndexError`
(modelled as `none`). -/
def get_provider_default (providers : List ProviderDef) : Option ProviderDef :=
  match providers.find? (fun p => p.default) with
  | some d => some d
  | none => providers.head?

/-- Resources with `type` equal to `collection`
(`filter_dict_by_key_value`). -/
def collectionsOf (cfg : Config) : List (String × Resource) :=
  cfg.resources.filter (fun e => e.2.rtype == ("collection"))

/-- Lookup of a resource by identifier in the full resource mapping. -/
def lookupResource (cfg : Config) (d : String) : Option Resource :=
  (cfg.resources.find? (fun e => e.1 == d)).map (fun e => e.2)

/-- An error outcome of a handler stage: a response produced through
`get_exception`, or an exception the Python code does not catch. -/
inductive Abort where
  | exc (status : Nat) (code : String) (msg : String)
  | throw (name : String)
deriving DecidableEq

/-- Early-exit combinator for handler stages. -/
def run {α β : Type} (onAbort : Abort → β) (x : Except Abort α)
    (k : α → β) : β :=
  match x with
  | Except.error a => onAbort a
  | Except.ok v => k v

@[simp] theorem run_ok {α β : Type} (f : Abort → β) (v : α) (k : α → β) :
    run f (Except.ok v) k = k v := rfl

@[simp] theorem run_error {α β : Type} (f : Abort → β) (a : Abort)
    (k : α → β) : run f (Except.error a) k = f a := rfl

/-! ## The items pipeline (`get_collection_items`, api.py 574-975) -/

/-- Result of `get_collection_items`. -/
inductive ItemsRes where
  | ok (body : ItemsBody)
  | okHtml (content : String)
  | okCsv (content : String) (filename : String)
  | okJsonld (content : String)
  | err (status : Nat) (code : String) (msg : String)
  | raised (name : String)
deriving DecidableEq

/-- Map a stage abort to an items result. -/
def itemsAbort : Abort → ItemsRes
  | Abort.exc s c m => ItemsRes.err s c m
  | Abort.throw n => ItemsRes.raised n

/-- The reserved parameter names of api.py lines 596-610, never treated
as property filters. -/
def reserved_fieldnames : List String :=
  [("bbox"), ("f"), ("lang"), ("limit"), ("offset"), ("resulttype"),
   ("datetime"), ("sortby"), ("properties"), ("skipGeometry"), ("q"),
   ("filter"), ("filter-lang")]

/-- Offset handling of api.py lines 622-637: absent gives zero
(`TypeError` path), non-integer is a 400, negative is a 400. -/
def processOffset (params : List (String × String)) : Except Abort Int :=
  match lookupStr params ("offset") with
  | none => Except.ok 0
  | some s =>
    match pyIntParse s with
    | none => Except.error (Abort.exc 400 ("InvalidParameterValue")
        ("offset value should be an integer"))
    | some o =>
      if o < 0 then
        Except.error (Abort.exc 400 ("InvalidParameterValue")
          ("offset value should be positive or zero"))
      else Except.ok o

/-- Limit handling of api.py lines 639-656: absent gives the configured
server limit, non-integer is a 400, non-positive is a 400. -/
def processLimit (serverLimit : Int) (params : List (String × String)) :
    Except Abort Int :=
  match lookupStr params ("limit") with
  | none => Except.ok serverLimit
  | some s =>
    match pyIntParse s with
    | none => Except.error (Abort.exc 400 ("InvalidParameterValue")
        ("limit value should be an integer"))
    | some l =>
      if l ≤ 0 then
        Except.error (Abort.exc 400 ("InvalidParameterValue")
          ("limit value should be strictly positive"))
      else Except.ok l

/-- Result type handling of api.py line 658; the empty string is falsy
in Python, so it also yields `results`. -/
def resulttypeOf (params : List (String × String)) : String :=
  match lookupStr params ("resulttype") with
  | none => "results"
  | some s => if s = "" then "results" else s

/-- Bbox handling of api.py lines 660-673: absent gives the empty list,
a validator error is a 400 with the raised message. -/
def processBbox (env : Env) (params : List (String × String)) :
    Except Abort (List Rat) :=
  match lookupStr params ("bbox") with
  | none => Except.ok []
  | some s =>
    match env.validateBbox s with
    | Except.error msg =>
      Except.error (Abort.exc 400 ("InvalidParameterValue") msg)
    | Except.ok b => Except.ok b

/-- Datetime handling of api.py lines 675-686: when the collection has
no `extents` entry the `KeyError` is swallowed and the raw parameter
passes through unvalidated; a validator error is a 400 with the raised
message. -/
def processDatetime (env : Env) (extents : Option Extents)
    (params : List (String × String)) : Except Abort (Option String) :=
  match extents with
  | none => Except.ok (lookupStr params ("datetime"))
  | some ext =>
    match env.validateDatetime ext (lookupStr params ("datetime")) with
    | Except.error msg =>
      Except.error (Abort.exc 400 ("InvalidParameterValue") msg)
    | Except.ok v => Except.ok v

/-- Free text parameter of api.py line 689; the empty string is falsy in
Python, so it yields `None`. -/
def qParam (params : List (String × String)) : Option String :=
  match lookupStr params ("q") with
  | none => none
  | some s => if s = "" then none else some s

/-- The record fallback of api.py lines 698-708: executed inside the
`except ProviderTypeError` handler, so only a further
`ProviderTypeError` is turned into the 400; every other error raised
while loading the record provider propagates uncaught. -/
def recordFallback (env : Env) (providers : List ProviderDef) :
    Except Abort (ProviderDef × Provider) :=
  match get_provider_by_type providers ("record") with
  | none => Except.error (Abort.exc 400 ("NoApplicableCode")
      ("Invalid provider type"))
  | some pd =>
    match env.loadPlugin pd with
    | Except.ok p => Except.ok (pd, p)
    | Except.error LoadErr.typeErr =>
      Except.error (Abort.exc 400 ("NoApplicableCode")
        ("Invalid provider type"))
    | Except.error LoadErr.connErr =>
      Except.error (Abort.throw ("ProviderConnectionError"))
    | Except.error LoadErr.queryErr =>
      Except.error (Abort.throw ("ProviderQueryError"))
    | Except.error LoadErr.genericErr =>
      Except.error (Abort.throw ("ProviderGenericError"))

/-- Provider resolution of api.py lines 691-718: a feature provider,
falling back through `ProviderTypeError` to a record provider;
connection and query errors on the feature path map to generic 500
responses. -/
def loadProviderStage (env : Env) (providers : List ProviderDef) :
    Except Abort (ProviderDef × Provider) :=
  match get_provider_by_type providers ("feature") with
  | none => recordFallback env providers
  | some pd =>
    match env.loadPlugin pd with
    | Except.ok p => Except.ok (pd, p)
    | Except.error LoadErr.typeErr => recordFallback env providers
    | Except.error LoadErr.connErr =>
      Except.error (Abort.exc 500 ("NoApplicableCode")
        ("connection error (check logs)"))
    | Except.error LoadErr.queryErr =>
      Except.error (Abort.exc 500 ("NoApplicableCode")
        ("query error (check logs)"))
    | Except.error LoadErr.genericErr =>
      Except.error (Abort.throw ("ProviderGenericError"))

/-- Property filters of api.py lines 720-724: parameters whose key is
not reserved and is a provider field become equality filters; everything
else is ignored. -/
def propertyFilters (params : List (String × String)) (p : Provider) :
    List (String × String) :=
  params.filter (fun kv =>
    ¬ kv.1 ∈ reserved_fieldnames ∧ kv.1 ∈ p.fields.map (fun f => f.1))

/-- One sortby token of api.py lines 732-745; Python raises `IndexError`
on an empty token. -/
def parseSortToken (fields : List String) (s : String) :
    Except Abort SortSpec :=
  match s.data with
  | [] => Except.error (Abort.throw ("IndexError"))
  | c :: rest =>
    let order := if c = '+' ∨ c = '-' then String.mk [c] else "+"
    let prop := if c = '+' ∨ c = '-' then String.mk rest else s
    if prop ∈ fields then Except.ok { property := prop, order := order }
    else Except.error (Abort.exc 400 ("InvalidParameterValue")
      ("bad sort property"))

/-- Sortby handling of api.py lines 726-747. -/
def processSortby (params : List (String × String)) (p : Provider) :
    Except Abort (List SortSpec) :=
  match lookupStr params ("sortby") with
  | none => Except.ok []
  | some val =>
    (val.splitOn (",")).mapM
      (parseSortToken (p.fields.map (fun f => f.1)))

/-- Properties selection of api.py lines 749-762: any selected name
outside provider properties and fields is a 400. -/
def processSelectProperties (params : List (String × String))
    (p : Provider) : Except Abort (List String) :=
  match lookupStr params ("properties") with
  | none => Except.ok []
  | some val =>
    let sel := val.splitOn (",")
    if sel.any (fun s =>
        ¬ (s ∈ p.properties ∨ s ∈ p.fields.map (fun f => f.1))) then
      Except.error (Abort.exc 400 ("InvalidParameterValue")
        ("unknown properties specified"))
    else Except.ok sel

/-- skipGeometry handling of api.py lines 764-769. -/
def skipGeometryOf (params : List (String × String)) : Bool :=
  match lookupStr params ("skipGeometry") with
  | none => false
  | some v => str2bool v

/-- CQL filter handling of api.py lines 771-783: a present `filter`
parameter is given to the external parse function and a failure is a 400
naming the text. -/
def processCql (env : Env) (params : List (String × String)) :
    Except Abort (Option CqlFilter) :=
  match lookupStr params ("filter") with
  | none => Except.ok none
  | some txt =>
    match env.parseEcql txt with
    | some f => Except.ok (some f)
    | none => Except.error (Abort.exc 400 ("InvalidParameterValue")
        ("Bad CQL string : " ++ txt))

/-- filter-lang handling of api.py lines 785-792: only absent or
`cql-text` is accepted. -/
def processFilterLang (params : List (String × String)) :
    Except Abort (Option String) :=
  match lookupStr params ("filter-lang") with
  | none => Except.ok none
  | some s =>
    if s = "cql-text" then Except.ok (some s)
    else Except.error (Abort.exc 400 ("InvalidParameterValue")
      ("Invalid filter language"))

/-- The two filter stages in their source order: the CQL text is parsed
before `filter-lang` is examined. -/
def processFilterAndLang (env : Env) (params : List (String × String)) :
    Except Abort (Option CqlFilter × Option String) :=
  match processCql env params with
  | Except.error e => Except.error e
  | Except.ok f =>
    match processFilterLang params with
    | Except.error e => Except.error e
    | Except.ok fl => Except.ok (f, fl)

/-- The provider query of api.py lines 812-844 with its three handled
error classes. -/
def runQuery (p : Provider) (args : QueryArgs) : Except Abort ItemsBody :=
  match p.query args with
  | Except.ok c => Except.ok c
  | Except.error ProviderErr.connErr =>
    Except.error (Abort.exc 500 ("NoApplicableCode")
      ("connection error (check logs)"))
  | Except.error ProviderErr.queryErr =>
    Except.error (Abort.exc 500 ("NoApplicableCode")
      ("query error (check logs)"))
  | Except.error ProviderErr.genericErr =>
    Except.error (Abort.exc 500 ("NoApplicableCode")
      ("generic error (check logs)"))

/-- The query arguments record of api.py lines 812-826. -/
def mkQueryArgs (req : Request) (env : Env) (pd : ProviderDef)
    (p : Provider) (offset limit : Int) (bbox : List Rat)
    (dt : Option String) (sortby : List SortSpec)
    (selprops : List String) (fq : Option CqlFilter) : QueryArgs :=
  { offset := offset
    limit := limit
    resulttype := resulttypeOf req.params
    bbox := bbox
    datetime_ := dt
    properties := propertyFilters req.params p
    sortby := sortby
    select_properties := selprops
    skip_geometry := skipGeometryOf req.params
    q := qParam req.params
    language := env.getPluginLocale pd req.rawLocale
    filterq := fq }

/-- The prev link of api.py lines 877-886, pointing at
`max(0, offset - limit)`. -/
def prevLink (uri sqp : String) (offset limit : Int) : Link :=
  { ltype := "application/geo+json"
    rel := "prev"
    title := "items (prev)"
    href := uri ++ "?offset=" ++ toString (max 0 (offset - limit)) ++ sqp
    hreflang := none }

/-- The next link of api.py lines 888-899, pointing at
`offset + limit`. -/
def nextLink (uri sqp : String) (offset limit : Int) : Link :=
  { ltype := "application/geo+json"
    rel := "next"
    title := "items (next)"
    href := uri ++ "?offset=" ++ toString (offset + limit) ++ sqp
    hreflang := none }

/-- The links list of api.py lines 856-908: the three format links, a
prev link exactly when the offset is positive, a next link exactly when
the returned feature count equals the limit, and the collection
backlink. -/
def assembleItemsLinks (req : Request) (uri sqp colTitle : String)
    (offset limit : Int) (nfeat : Nat) : List Link :=
  [ { ltype := "application/geo+json"
      rel := get_linkrel req F_JSON
      title := "This document as GeoJSON"
      href := uri ++ "?f=" ++ F_JSON ++ sqp
      hreflang := none },
    { ltype := FORMAT_TYPES F_JSONLD
      rel := get_linkrel req F_JSONLD
      title := "This document as RDF (JSON-LD)"
      href := uri ++ "?f=" ++ F_JSONLD ++ sqp
      hreflang := none },
    { ltype := FORMAT_TYPES F_HTML
      rel := get_linkrel req F_HTML
      title := "This document as HTML"
      href := uri ++ "?f=" ++ F_HTML ++ sqp
      hreflang := none } ] ++
  (if 0 < offset then [prevLink uri sqp offset limit] else []) ++
  (if (nfeat : Int) = limit then [nextLink uri sqp offset limit] else []) ++
  [ { ltype := FORMAT_TYPES F_JSON
      title := colTitle
      rel := "collection"
      href := uri
      hreflang := none } ]

/-- The response content after link building and time stamping (api.py
lines 856-910). -/
def finalizeItemsBody (env : Env) (req : Request) (uri sqp colTitle : String)
    (offset limit : Int) (body0 : ItemsBody) : ItemsBody :=
  { body0 with
    links := assembleItemsLinks req uri sqp colTitle offset limit
      body0.features.length
    timeStamp := some env.now }

/-- The format dispatch at the end of `get_collection_items` (api.py
lines 917-975): HTML rendering, CSV writing (whose serialization failure
is a 500 and whose options fetch a feature binding, raising
`ProviderTypeError` uncaught when there is none), JSON-LD wrapping, and
plain JSON otherwise. -/
def itemsFormatDispatch (env : Env) (req : Request)
    (dataset : String) (res : Resource) (p : Provider)
    (body : ItemsBody) : ItemsRes :=
  if req.format = F_HTML then ItemsRes.okHtml (env.renderItemsHtml body)
  else if req.format = "csv" then
    match get_provider_by_type res.providers ("feature") with
    | none => ItemsRes.raised ("ProviderTypeError")
    | some pdf =>
      match env.csvWrite body pdf with
      | Except.error _ =>
        ItemsRes.err 500 ("NoApplicableCode") ("Error serializing output")
      | Except.ok content =>
        ItemsRes.okCsv content
          (match p.filename with
           | none => dataset ++ ".csv"
           | some f => f)
  else if req.format = F_JSONLD then
    ItemsRes.okJsonld (env.geojson2jsonld body dataset
      (match p.uri_field with | none => "id" | some u => u))
  else ItemsRes.ok body

/-- The `get_collection_items` handler (api.py lines 574-975). -/
def get_collection_items (cfg : Config) (env : Env) (req : Request)
    (dataset : String) : ItemsRes :=
  if req.valid = false then
    ItemsRes.err 400 ("InvalidParameterValue") ("Invalid format requested")
  else
    match (collectionsOf cfg).find? (fun e => e.1 == dataset) with
    | none => ItemsRes.err 404 ("NotFound") ("Collection not found")
    | some entry =>
      let res := entry.2
      run itemsAbort (processOffset req.params) (fun offset =>
      run itemsAbort (processLimit cfg.serverLimit req.params) (fun limit =>
      run itemsAbort (processBbox env req.params) (fun bbox =>
      run itemsAbort (processDatetime env res.extents req.params) (fun dt =>
      run itemsAbort (loadProviderStage env res.providers) (fun pp =>
      run itemsAbort (processSortby req.params pp.2) (fun sortby =>
      run itemsAbort (processSelectProperties req.params pp.2) (fun selprops =>
      run itemsAbort (processFilterAndLang env req.params) (fun ffl =>
      run itemsAbort
        (runQuery pp.2 (mkQueryArgs req env pp.1 pp.2 offset limit bbox dt
          sortby selprops ffl.1)) (fun body0 =>
        let uri := get_collections_url cfg ++ "/" ++ dataset ++ "/items"
        let sqp := serializedQueryParams req.params
        let body := finalizeItemsBody env req uri sqp
          (env.translate res.title req.locale) offset limit body0
        itemsFormatDispatch env req dataset res pp.2 body)))))))))

/-! ## The queryables handler (`get_collection_queryables`, api.py
478-572) -/

/-- Result of `get_collection_queryables`. -/
inductive QueryablesRes where
  | ok (doc : QueryablesDoc)
  | okHtml (content : String)
  | err (status : Nat) (code : String) (msg : String)
  | raised (name : String)
deriving DecidableEq

/-- Map a stage abort to a queryables result. -/
def queryablesAbort : Abort → QueryablesRes
  | Abort.exc s c m => QueryablesRes.err s c m
  | Abort.throw n => QueryablesRes.raised n

/-- The record fallback of api.py lines 510-517: it runs inside the
`except ProviderTypeError` handler without any wrapping of its own, so
every error it raises (including a missing record binding) propagates
uncaught. -/
def queryablesRecordFallback (env : Env) (providers : List ProviderDef) :
    Except Abort Provider :=
  match get_provider_by_type providers ("record") with
  | none => Except.error (Abort.throw ("ProviderTypeError"))
  | some pd =>
    match env.loadPlugin pd with
    | Except.ok p => Except.ok p
    | Except.error LoadErr.typeErr =>
      Except.error (Abort.throw ("ProviderTypeError"))
    | Except.error LoadErr.connErr =>
      Except.error (Abort.throw ("ProviderConnectionError"))
    | Except.error LoadErr.queryErr =>
      Except.error (Abort.throw ("ProviderQueryError"))
    | Except.error LoadErr.genericErr =>
      Except.error (Abort.throw ("ProviderGenericError"))

/-- Provider resolution of api.py lines 502-527 for queryables. -/
def queryablesLoadStage (env : Env) (providers : List ProviderDef) :
    Except Abort Provider :=
  match get_provider_by_type providers ("feature") with
  | none => queryablesRecordFallback env providers
  | some pd =>
    match env.loadPlugin pd with
    | Except.ok p => Except.ok p
    | Except.error LoadErr.typeErr => queryablesRecordFallback env providers
    | Except.error LoadErr.connErr =>
      Except.error (Abort.exc 500 ("NoApplicableCode")
        ("connection error (check logs)"))
    | Except.error LoadErr.queryErr =>
      Except.error (Abort.exc 500 ("NoApplicableCode")
        ("query error (check logs)"))
    | Except.error LoadErr.genericErr =>
      Except.error (Abort.throw ("ProviderGenericError"))

/-- The queryables document of api.py lines 529-555: a geometry
property when the provider has fields and is spatial, then the
provider fields restricted to its selectable properties. -/
def buildQueryables (cfg : Config) (env : Env) (req : Request)
    (dataset : String) (title : String) (p : Provider) : QueryablesDoc :=
  { qtype := "object"
    title := env.translate title req.locale
    properties :=
      (if ¬ p.fields = [] ∧ p.spatial = true then
        [(("geometry"),
          QueryableProp.ref ("https://geojson.org/schema/Geometry.json"))]
       else []) ++
      p.fields.filterMap (fun kv =>
        if p.properties = [] ∨ kv.1 ∈ p.properties then
          some (kv.1, QueryableProp.field kv.1 kv.2.ftype kv.2.values)
        else none)
    schema := "http://json-schema.org/draft/2019-09/schema"
    id := get_collections_url cfg ++ "/" ++ dataset ++ "/queryables" }

/-- The `get_collection_queryables` handler (api.py lines 478-572). -/
def get_collection_queryables (cfg : Config) (env : Env) (req : Request)
    (dataset : Option String) : QueryablesRes :=
  if req.valid = false then
    QueryablesRes.err 400 ("InvalidParameterValue")
      ("Invalid format requested")
  else
    match dataset with
    | none => QueryablesRes.err 404 ("NotFound") ("Collection not found")
    | some d =>
      match lookupResource cfg d with
      | none => QueryablesRes.err 404 ("NotFound") ("Collection not found")
      | some r =>
        run queryablesAbort (queryablesLoadStage env r.providers) (fun p =>
          let doc := buildQueryables cfg env req d r.title p
          if req.format = F_HTML then
            QueryablesRes.okHtml (env.renderQueryablesHtml doc)
          else QueryablesRes.ok doc)

/-! ## The collections handler (`describe_collections`, api.py 46-476) -/

/-- Result of `describe_collections`: a listing document, a single
collection document, a rendered document, an error response or an
uncaught exception. -/
inductive DescribeRes where
  | okList (cols : List CollectionDoc) (links : List Link)
  | okSingle (c : CollectionDoc)
  | okHtml (content : String)
  | okJsonld (content : String)
  | err (status : Nat) (code : String) (msg : String)
  | raised (name : String)
deriving DecidableEq

/-- Map a stage abort to a describe result. -/
def describeAbort : Abort → DescribeRes
  | Abort.exc s c m => DescribeRes.err s c m
  | Abort.throw n => DescribeRes.raised n

/-- Extent output object of api.py lines 101-121. -/
def extentOf (e : Extents) : ExtentDoc :=
  { bbox :=
      (match e.spatial.bbox with
       | ConfBbox.single b => [b]
       | ConfBbox.multi bs => bs)
    crs := e.spatial.crs
    temporal := e.temporal.map (fun t =>
      { interval :=
          ((match t.tbegin with | none => ".." | some b => b),
           (match t.tend with | none => ".." | some b => b))
        trs := t.trs }) }

/-- A configured link after localisation (api.py lines 123-133). -/
def translateLink (env : Env) (req : Request) (l : Link) : Link :=
  { ltype := l.ltype
    rel := l.rel
    title := env.translate l.title req.locale
    href := env.translate l.href req.locale
    hreflang := l.hreflang.map (fun h => env.translate h req.locale) }

/-- The root and self format links of api.py lines 136-178. -/
def rootAndSelfLinks (cfg : Config) (req : Request) (k : String) :
    List Link :=
  [ { ltype := FORMAT_TYPES F_JSON
      rel := "root"
      title := "The landing page of this server as JSON"
      href := cfg.serverUrl ++ "?f=" ++ F_JSON
      hreflang := none },
    { ltype := FORMAT_TYPES F_HTML
      rel := "root"
      title := "The landing page of this server as HTML"
      href := cfg.serverUrl ++ "?f=" ++ F_HTML
      hreflang := none },
    { ltype := FORMAT_TYPES F_JSON
      rel := get_linkrel req F_JSON
      title := "This document as JSON"
      href := get_collections_url cfg ++ "/" ++ k ++ "?f=" ++ F_JSON
      hreflang := none },
    { ltype := FORMAT_TYPES F_JSONLD
      rel := get_linkrel req F_JSONLD
      title := "This document as RDF (JSON-LD)"
      href := get_collections_url cfg ++ "/" ++ k ++ "?f=" ++ F_JSONLD
      hreflang := none },
    { ltype := FORMAT_TYPES F_HTML
      rel := get_linkrel req F_HTML
      title := "This document as HTML"
      href := get_collections_url cfg ++ "/" ++ k ++ "?f=" ++ F_HTML
      hreflang := none } ]

/-- The feature, record and tile collection links of api.py lines
180-233; the HTML queryables href reproduces the missing slash of line
199. -/
def itemsTypeLinks (cfg : Config) (k : String) : List Link :=
  [ { ltype := FORMAT_TYPES F_JSON
      rel := "queryables"
      title := "Queryables for this collection as JSON"
      href := get_collections_url cfg ++ "/" ++ k ++ "/queryables?f=" ++ F_JSON
      hreflang := none },
    { ltype := FORMAT_TYPES F_HTML
      rel := "queryables"
      title := "Queryables for this collection as HTML"
      href := get_collections_url cfg ++ "/" ++ k ++ "queryables?f=" ++ F_HTML
      hreflang := none },
    { ltype := "application/geo+json"
      rel := "items"
      title := "items as GeoJSON"
      href := get_collections_url cfg ++ "/" ++ k ++ "/items?f=" ++ F_JSON
      hreflang := none },
    { ltype := FORMAT_TYPES F_JSONLD
      rel := "items"
      title := "items as RDF (GeoJSON-LD)"
      href := get_collections_url cfg ++ "/" ++ k ++ "/items?f=" ++ F_JSONLD
      hreflang := none },
    { ltype := FORMAT_TYPES F_HTML
      rel := "items"
      title := "Items as HTML"
      href := get_collections_url cfg ++ "/" ++ k ++ "/items?f=" ++ F_HTML
      hreflang := none } ]

/-- The coverage collection links of api.py lines 237-301. -/
def coverageLinks (cfg : Config) (k : String) : List Link :=
  [ { ltype := FORMAT_TYPES F_JSON
      rel := "collection"
      title := "Detailed Coverage metadata in JSON"
      href := get_collections_url cfg ++ "/" ++ k ++ "?f=" ++ F_JSON
      hreflang := none },
    { ltype := FORMAT_TYPES F_HTML
      rel := "collection"
      title := "Detailed Coverage metadata in HTML"
      href := get_collections_url cfg ++ "/" ++ k ++ "?f=" ++ F_HTML
      hreflang := none },
    { ltype := FORMAT_TYPES F_JSON
      rel := OGC_RELTYPES_BASE ++ "/coverage-domainset"
      title := "Coverage domain set of collection in JSON"
      href := get_collections_url cfg ++ "/" ++ k ++ "/coverage/domainset?f="
        ++ F_JSON
      hreflang := none },
    { ltype := FORMAT_TYPES F_HTML
      rel := OGC_RELTYPES_BASE ++ "/coverage-domainset"
      title := "Coverage domain set of collection in HTML"
      href := get_collections_url cfg ++ "/" ++ k ++ "/coverage/domainset?f="
        ++ F_HTML
      hreflang := none },
    { ltype := FORMAT_TYPES F_JSON
      rel := OGC_RELTYPES_BASE ++ "/coverage-rangetype"
      title := "Coverage range type of collection in JSON"
      href := get_collections_url cfg ++ "/" ++ k ++ "/coverage/rangetype?f="
        ++ F_JSON
      hreflang := none },
    { ltype := FORMAT_TYPES F_HTML
      rel := OGC_RELTYPES_BASE ++ "/coverage-rangetype"
      title := "Coverage range type of collection in HTML"
      href := get_collections_url cfg ++ "/" ++ k ++ "/coverage/rangetype?f="
        ++ F_HTML
      hreflang := none },
    { ltype := "application/prs.coverage+json"
      rel := OGC_RELTYPES_BASE ++ "/coverage"
      title := "Coverage data"
      href := get_collections_url cfg ++ "/" ++ k ++ "/coverage?f=" ++ F_JSON
      hreflang := none } ]

/-- The optional provider format coverage link of api.py lines
302-316. -/
def coverageFormatLink (cfg : Config) (k : String) (f : ProviderFormat) :
    Link :=
  { ltype := f.mimetype
    rel := OGC_RELTYPES_BASE ++ "/coverage"
    title := "Coverage data as " ++ f.name
    href := get_collections_url cfg ++ "/" ++ k ++ "/coverage?f=" ++ f.name
    hreflang := none }

/-- The tile links of api.py lines 341-363. -/
def tileLinks (cfg : Config) (k : String) : List Link :=
  [ { ltype := FORMAT_TYPES F_JSON
      rel := "tiles"
      title := "Tiles as JSON"
      href := get_collections_url cfg ++ "/" ++ k ++ "/tiles?f=" ++ F_JSON
      hreflang := none },
    { ltype := FORMAT_TYPES F_HTML
      rel := "tiles"
      title := "Tiles as HTML"
      href := get_collections_url cfg ++ "/" ++ k ++ "/tiles?f=" ++ F_HTML
      hreflang := none } ]

/-- The pair of EDR query type links of api.py lines 386-410. -/
def edrQtLinks (cfg : Config) (k : String) (qt : String) : List Link :=
  [ { ltype := "application/json"
      rel := "data"
      title := qt ++ " query for this collection as JSON"
      href := get_collections_url cfg ++ "/" ++ k ++ "/" ++ qt ++ "?f="
        ++ F_JSON
      hreflang := none },
    { ltype := FORMAT_TYPES F_HTML
      rel := "data"
      title := qt ++ " query for this collection as HTML"
      href := get_collections_url cfg ++ "/" ++ k ++ "/" ++ qt ++ "?f="
        ++ F_HTML
      hreflang := none } ]

/-- The extended coverage metadata of api.py lines 317-334, resolved
only when a single dataset is requested: a missing coverage binding is
tolerated, a connection error while loading is a generic 500, other
load errors propagate uncaught. -/
def coverageExtras (cfg : Config) (env : Env) (dataset : Option String)
    (k : String) : Except Abort (Option CoverageMeta) :=
  match dataset with
  | none => Except.ok none
  | some _ =>
    match lookupResource cfg k with
    | none => Except.error (Abort.throw ("KeyError"))
    | some r =>
      match get_provider_by_type r.providers ("coverage") with
      | none => Except.ok none
      | some pd =>
        match env.loadPlugin pd with
        | Except.ok p =>
          Except.ok (some
            { crs := [p.crs]
              domainset := p.domainset
              rangetype := p.rangetype })
        | Except.error LoadErr.connErr =>
          Except.error (Abort.exc 500 ("NoApplicableCode")
            ("connection error (check logs)"))
        | Except.error LoadErr.typeErr => Except.ok none
        | Except.error LoadErr.queryErr =>
          Except.error (Abort.throw ("ProviderQueryError"))
        | Except.error LoadErr.genericErr =>
          Except.error (Abort.throw ("ProviderGenericError"))

/-- The EDR links and parameter names of api.py lines 365-417, added
only when an EDR binding exists and a single dataset is requested; a
connection error while loading is a generic 500, a type error is
tolerated, other errors propagate uncaught. -/
def edrExtras (cfg : Config) (env : Env) (dataset : Option String)
    (k : String) (v : Resource) :
    Except Abort (List Link × Option (List (String × EdrField))) :=
  match get_provider_by_type v.providers ("edr"), dataset with
  | some _, some d =>
    match lookupResource cfg d with
    | none => Except.error (Abort.throw ("KeyError"))
    | some r =>
      match get_provider_by_type r.providers ("edr") with
      | none => Except.ok ([], none)
      | some pd =>
        match env.loadPlugin pd with
        | Except.ok p =>
          Except.ok ((p.queryTypes.map (edrQtLinks cfg k)).flatten,
            if p.edrParameters = [] then none
            else some (p.edrParameters.map (fun f => (f.id, f))))
        | Except.error LoadErr.connErr =>
          Except.error (Abort.exc 500 ("NoApplicableCode")
            ("connection error (check logs)"))
        | Except.error LoadErr.typeErr => Except.ok ([], none)
        | Except.error LoadErr.queryErr =>
          Except.error (Abort.throw ("ProviderQueryError"))
        | Except.error LoadErr.genericErr =>
          Except.error (Abort.throw ("ProviderGenericError"))
  | _, _ => Except.ok ([], none)

/-- One iteration body of the collections loop (api.py lines 85-417):
the default provider decides the collection type, then metadata, extent
and the link sets are assembled. -/
def buildCollection (cfg : Config) (env : Env) (req : Request)
    (dataset : Option String) (k : String) (v : Resource) :
    Except Abort CollectionDoc :=
  match get_provider_default v.providers with
  | none => Except.error (Abort.throw ("IndexError"))
  | some collection_data =>
    let cdType := collection_data.ptype
    let isItemsType :=
      cdType = ("feature") ∨ cdType = ("record") ∨ cdType = ("tile")
    let links0 := (v.links.map (translateLink env req)) ++
      rootAndSelfLinks cfg req k
    let links1 := links0 ++ (if isItemsType then itemsTypeLinks cfg k else [])
    let links2 := links1 ++
      (if cdType = ("coverage") then
        coverageLinks cfg k ++
          (match collection_data.pformat with
           | none => []
           | some f => [coverageFormatLink cfg k f])
       else [])
    match (if cdType = ("coverage") then coverageExtras cfg env dataset k
           else Except.ok none) with
    | Except.error e => Except.error e
    | Except.ok covMeta =>
      let links3 := links2 ++
        (if (get_provider_by_type v.providers ("tile")).isSome then
          tileLinks cfg k
         else [])
      match edrExtras cfg env dataset k v with
      | Except.error e => Except.error e
      | Except.ok other =>
        Except.ok
          { id := k
            title := env.translate v.title req.locale
            description := env.translate v.description req.locale
            keywords := v.keywords
            links := links3 ++ other.1
            extent := v.extents.map extentOf
            itemType := if isItemsType then some cdType else none
            coverageMeta := covMeta
            parameterNames := other.2 }

/-- Outcome of the collections loop: either the single requested
collection (the `break` of api.py line 421) or the accumulated
listing. -/
inductive LoopOut where
  | single (c : CollectionDoc)
  | listed (cs : List CollectionDoc)
deriving DecidableEq

/-- The collections loop of api.py lines 81-423: hidden collections are
skipped before anything else, and when a dataset was requested the loop
stops at the first matching identifier with the bare collection
document. -/
def describeLoop (cfg : Config) (env : Env) (req : Request)
    (dataset : Option String) :
    List (String × Resource) → List CollectionDoc → Except Abort LoopOut
  | [], acc => Except.ok (LoopOut.listed acc)
  | (k, v) :: rest, acc =>
    if (match v.visibility with | none => "default" | some s => s) =
        ("hidden") then
      describeLoop cfg env req dataset rest acc
    else
      match buildCollection cfg env req dataset k v with
      | Except.error e => Except.error e
      | Except.ok c =>
        match dataset with
        | some d =>
          if k = d then Except.ok (LoopOut.single c)
          else describeLoop cfg env req dataset rest (acc ++ [c])
        | none => describeLoop cfg env req dataset rest (acc ++ [c])

/-- The listing self links of api.py lines 425-450, appended only when
no dataset was requested. -/
def describeListingLinks (cfg : Config) (req : Request) : List Link :=
  [ { ltype := FORMAT_TYPES F_JSON
      rel := get_linkrel req F_JSON
      title := "This document as JSON"
      href := get_collections_url cfg ++ "?f=" ++ F_JSON
      hreflang := none },
    { ltype := FORMAT_TYPES F_JSONLD
      rel := get_linkrel req F_JSONLD
      title := "This document as RDF (JSON-LD)"
      href := get_collections_url cfg ++ "?f=" ++ F_JSONLD
      hreflang := none },
    { ltype := FORMAT_TYPES F_HTML
      rel := get_linkrel req F_HTML
      title := "This document as HTML"
      href := get_collections_url cfg ++ "?f=" ++ F_HTML
      hreflang := none } ]

/-- Format dispatch of `describe_collections` (api.py lines 425-476). -/
def finishDescribe (cfg : Config) (env : Env) (req : Request)
    (dataset : Option String) (out : LoopOut) : DescribeRes :=
  match out with
  | LoopOut.single c =>
    if req.format = F_HTML then DescribeRes.okHtml (env.renderSingleHtml c)
    else if req.format = F_JSONLD then
      DescribeRes.okJsonld (env.jsonldifySingle c req.locale)
    else DescribeRes.okSingle c
  | LoopOut.listed cs =>
    let links :=
      match dataset with
      | none => describeListingLinks cfg req
      | some _ => ([] : List Link)
    if req.format = F_HTML then
      DescribeRes.okHtml (env.renderDescribeHtml cs links)
    else if req.format = F_JSONLD then
      DescribeRes.okJsonld (env.jsonldifyList cs req.locale)
    else DescribeRes.okList cs links

/-- The `describe_collections` handler (api.py lines 46-476). -/
def describe_collections (cfg : Config) (env : Env) (req : Request)
    (dataset : Option String) : DescribeRes :=
  if req.valid = false then
    DescribeRes.err 400 ("InvalidParameterValue") ("Invalid format requested")
  else
    match dataset with
    | some d =>
      if ((collectionsOf cfg).find? (fun e => e.1 == d)).isNone then
        DescribeRes.err 404 ("NotFound") ("Collection not found")
      else
        run describeAbort
          (describeLoop cfg env req (some d)
            ((collectionsOf cfg).filter (fun e => e.1 == d)) [])
          (finishDescribe cfg env req (some d))
    | none =>
      run describeAbort
        (describeLoop cfg env req none (collectionsOf cfg) [])
        (finishDescribe cfg env req none)

/-! ## Concrete stand-ins used by witnesses and counterexamples -/

/-- An empty items body. -/
def emptyBody : ItemsBody :=
  { features := [], numberMatched := none, links := [], timeStamp := none }

/-- A provider stub with no fields. -/
def provStub : Provider :=
  { fields := []
    properties := []
    spatial := false
    id_field := "id"
    uri_field := none
    title_field := none
    filename := none
    crs := ""
    domainset := ""
    rangetype := ""
    edrParameters := []
    queryTypes := []
    query := fun _ => Except.ok emptyBody }

/-- A neutral environment: every collaborator succeeds trivially. -/
def envBase : Env :=
  { validateBbox := fun _ => Except.ok []
    validateDatetime := fun _ d => Except.ok d
    parseEcql := fun t => some { ast := t }
    loadPlugin := fun _ => Except.ok provStub
    getPluginLocale := fun _ _ => none
    translate := fun s _ => s
    now := "now"
    renderItemsHtml := fun _ => ""
    renderDescribeHtml := fun _ _ => ""
    renderSingleHtml := fun _ => ""
    renderQueryablesHtml := fun _ => ""
    geojson2jsonld := fun _ _ _ => ""
    jsonldifySingle := fun _ _ => ""
    jsonldifyList := fun _ _ => ""
    csvWrite := fun _ _ => Except.ok ("") }

/-- A valid JSON request with no parameters. -/
def reqJson : Request :=
  { params := [], format := F_JSON, locale := "en", rawLocale := "en",
    valid := true }

/-! ## Claims -/

/-- C2 witness at a concrete parameter list containing `f`, a filter
parameter with space, comma and percent bytes, and `offset`. -/
theorem parseQS_serialized_witness :
    parseQS (serializedQueryParamsBytes
      [([102], [106, 115, 111, 110]),
       ([110, 97, 109, 101], [104, 105, 32, 44, 37]),
       ([111, 102, 102, 115, 101, 116], [53])]) =
      List.filter (fun kv =>
        if kv.1 = fBytes ∨ kv.1 = offsetBytes then false else true)
        [([102], [106, 115, 111, 110]),
         ([110, 97, 109, 101], [104, 105, 32, 44, 37]),
         ([111, 102, 102, 115, 101, 116], [53])] :=
  parseQS_serialized
    [([102], [106, 115, 111, 110]),
     ([110, 97, 109, 101], [104, 105, 32, 44, 37]),
     ([111, 102, 102, 115, 101, 116], [53])] (by decide)

/-- C7: a request parameter becomes a property equality filter exactly
when its key is outside the reserved set and among the provider fields;
other parameters are ignored without error and reserved names are never
property filters. -/
theorem property_filters_iff (params : List (String × String))
    (p : Provider) (kv : String × String) :
    kv ∈ propertyFilters params p ↔
      (kv ∈ params ∧ ¬ kv.1 ∈ reserved_fieldnames ∧
        kv.1 ∈ p.fields.map (fun f => f.1)) := by
  simp [propertyFilters, List.mem_filter]

/-- C8: an items query against a collection whose providers include
neither a feature nor a record binding answers 400 with message
`Invalid provider type`, whatever the other validated parameters
were. -/
theorem items_no_provider_type (cfg : Config) (env : Env) (req : Request)
    (dataset : String) (entry : String × Resource) (offset limit : Int)
    (bbox : List Rat) (dt : Option String)
    (hv : req.valid = true)
    (hcol : (collectionsOf cfg).find? (fun e => e.1 == dataset) = some entry)
    (hoff : processOffset req.params = Except.ok offset)
    (hlim : processLimit cfg.serverLimit req.params = Except.ok limit)
    (hbbox : processBbox env req.params = Except.ok bbox)
    (hdt : processDatetime env entry.2.extents req.params = Except.ok dt)
    (hprov : ∀ pd ∈ entry.2.providers,
      ¬ pd.ptype = ("feature") ∧ ¬ pd.ptype = ("record")) :
    get_collection_items cfg env req dataset =
      ItemsRes.err 400 ("NoApplicableCode") ("Invalid provider type") := by
  have hf : get_provider_by_type entry.2.providers ("feature") = none := by
    rw [get_provider_by_type, List.find?_eq_none]
    intro pd hpd
    simp [(hprov pd hpd).1]
  have hr : get_provider_by_type entry.2.providers ("record") = none := by
    rw [get_provider_by_type, List.find?_eq_none]
    intro pd hpd
    simp [(hprov pd hpd).2]
  have hload : loadProviderStage env entry.2.providers =
      Except.error (Abort.exc 400 ("NoApplicableCode")
        ("Invalid provider type")) := by
    rw [loadProviderStage, hf, recordFallback, hr]
  rw [get_collection_items, hv]
  simp [hcol, hoff, hlim, hbbox, hdt, hload, itemsAbort]

/-- A tile-only provider binding. -/
def pdTile : ProviderDef :=
  { ptype := "tile", name := "t", default := false, pformat := none }

/-- A collection exposing only a tile binding. -/
def resTileOnly : Resource :=
  { rtype := "collection", title := "Maps", description := "",
    keywords := [], providers := [pdTile], extents := none, links := [],
    visibility := none }

/-- Configuration with only the tile-only collection. -/
def cfgTile : Config :=
  { serverUrl := "http://s", serverLimit := 10,
    resources := [(("maps"), resTileOnly)] }

/-- C8 witness: the tile-only collection queried via items is a 400
`Invalid provider type`. -/
theorem items_no_provider_type_witness :
    get_collection_items cfgTile envBase reqJson ("maps") =
      ItemsRes.err 400 ("NoApplicableCode") ("Invalid provider type") :=
  items_no_provider_type cfgTile envBase reqJson ("maps")
    (("maps"), resTileOnly) 0 10 [] none rfl rfl rfl rfl rfl rfl
    (by decide)

theorem get_linkrel_ne_prev (req : Request) (f : String) :
    (get_linkrel req f == ("prev")) = false := by
  rw [get_linkrel]
  split <;> rfl

theorem get_linkrel_ne_next (req : Request) (f : String) :
    (get_linkrel req f == ("next")) = false := by
  rw [get_linkrel]
  split <;> rfl

/-- The pagination behaviour of the assembled links list: a prev link
exactly for positive offsets, targeting `max 0 (offset - limit)`, and a
next link exactly when the returned count equals the limit, targeting
`offset + limit`. -/
theorem assembleItemsLinks_spec (req : Request) (uri sqp t : String)
    (offset limit : Int) (nfeat : Nat) :
    (((assembleItemsLinks req uri sqp t offset limit nfeat).any
        (fun l => l.rel == ("prev"))) = true ↔ 0 < offset) ∧
    (0 < offset → prevLink uri sqp offset limit ∈
      assembleItemsLinks req uri sqp t offset limit nfeat) ∧
    (((assembleItemsLinks req uri sqp t offset limit nfeat).any
        (fun l => l.rel == ("next"))) = true ↔ (nfeat : Int) = limit) ∧
    ((nfeat : Int) = limit → nextLink uri sqp offset limit ∈
      assembleItemsLinks req uri sqp t offset limit nfeat) := by
  unfold assembleItemsLinks
  by_cases hp : 0 < offset <;> by_cases hn : (nfeat : Int) = limit <;>
    simp [hp, hn, get_linkrel_ne_prev, get_linkrel_ne_next, prevLink,
      nextLink, List.any_append]

/-- C1: on the successful items path with validated offset and limit,
the response links contain a prev link exactly when the offset is
positive, targeting `max 0 (offset - limit)`, and a next link exactly
when the number of returned features equals the limit, targeting
`offset + limit`. -/
theorem items_pagination_links (cfg : Config) (env : Env) (req : Request)
    (dataset : String) (entry : String × Resource) (offset limit : Int)
    (bbox : List Rat) (dt : Option String) (pp : ProviderDef × Provider)
    (sortby : List SortSpec) (selprops : List String)
    (ffl : Option CqlFilter × Option String) (body0 body : ItemsBody)
    (hv : req.valid = true)
    (hfmt : req.format = F_JSON)
    (hcol : (collectionsOf cfg).find? (fun e => e.1 == dataset) = some entry)
    (hoff : processOffset req.params = Except.ok offset)
    (hlim : processLimit cfg.serverLimit req.params = Except.ok limit)
    (hbbox : processBbox env req.params = Except.ok bbox)
    (hdt : processDatetime env entry.2.extents req.params = Except.ok dt)
    (hprov : loadProviderStage env entry.2.providers = Except.ok pp)
    (hsort : processSortby req.params pp.2 = Except.ok sortby)
    (hsel : processSelectProperties req.params pp.2 = Except.ok selprops)
    (hffl : processFilterAndLang env req.params = Except.ok ffl)
    (hq : runQuery pp.2 (mkQueryArgs req env pp.1 pp.2 offset limit bbox dt
      sortby selprops ffl.1) = Except.ok body0)
    (h0 : 0 ≤ offset) (h1 : 0 < limit)
    (hok : get_collection_items cfg env req dataset = ItemsRes.ok body) :
    ((body.links.any (fun l => l.rel == ("prev"))) = true ↔ 0 < offset) ∧
    (0 < offset →
      prevLink (get_collections_url cfg ++ "/" ++ dataset ++ "/items")
        (serializedQueryParams req.params) offset limit ∈ body.links) ∧
    ((body.links.any (fun l => l.rel == ("next"))) = true ↔
      (body.features.length : Int) = limit) ∧
    ((body.features.length : Int) = limit →
      nextLink (get_collections_url cfg ++ "/" ++ dataset ++ "/items")
        (serializedQueryParams req.params) offset limit ∈ body.links) := by
  rw [get_collection_items, hv] at hok
  simp only [Bool.true_eq_false, if_false, hcol, hoff, run_ok, hlim, hbbox,
    hdt, hprov, hsort, hsel, hffl, hq] at hok
  rw [itemsFormatDispatch] at hok
  rw [hfmt] at hok
  simp only [F_JSON, F_HTML, F_JSONLD, String.reduceEq, if_false,
    reduceIte] at hok
  rw [ItemsRes.ok.injEq] at hok
  subst hok
  have hfeat : (finalizeItemsBody env req
      (get_collections_url cfg ++ "/" ++ dataset ++ "/items")
      (serializedQueryParams req.params)
      (env.translate entry.2.title req.locale) offset limit body0).features =
      body0.features := rfl
  have hlinks : (finalizeItemsBody env req
      (get_collections_url cfg ++ "/" ++ dataset ++ "/items")
      (serializedQueryParams req.params)
      (env.translate entry.2.title req.locale) offset limit body0).links =
      assembleItemsLinks req
        (get_collections_url cfg ++ "/" ++ dataset ++ "/items")
        (serializedQueryParams req.params)
        (env.translate entry.2.title req.locale) offset limit
        body0.features.length := rfl
  rw [hfeat, hlinks]
  exact assembleItemsLinks_spec req _ _ _ offset limit body0.features.length

/-- A feature provider binding. -/
def pdFeature : ProviderDef :=
  { ptype := "feature", name := "p", default := true, pformat := none }

/-- A plain visible feature collection. -/
def resObs : Resource :=
  { rtype := "collection", title := "Obs", description := "",
    keywords := [], providers := [pdFeature], extents := none, links := [],
    visibility := none }

/-- Configuration with the single collection `obs`. -/
def cfgObs : Config :=
  { serverUrl := "http://s", serverLimit := 10,
    resources := [(("obs"), resObs)] }

/-- A provider returning exactly two features. -/
def provTwo : Provider :=
  { provStub with
    query := fun _ => Except.ok
      { features := [{ id := "a", properties := [] },
                     { id := "b", properties := [] }]
        numberMatched := none
        links := []
        timeStamp := none } }

/-- Environment loading the two-feature provider. -/
def envTwo : Env := { envBase with loadPlugin := fun _ => Except.ok provTwo }

/-- Request for page two of page size two. -/
def reqPage : Request :=
  { params := [(("offset"), ("2")), (("limit"), ("2"))], format := F_JSON,
    locale := "en", rawLocale := "en", valid := true }

/-- The items body returned on the concrete paginated request. -/
def c1body : ItemsBody :=
  match get_collection_items cfgObs envTwo reqPage ("obs") with
  | ItemsRes.ok b => b
  | _ => emptyBody

/-- The provider content of the concrete paginated request. -/
def c1body0 : ItemsBody :=
  { features := [{ id := "a", properties := [] },
                 { id := "b", properties := [] }]
    numberMatched := none
    links := []
    timeStamp := none }

/-- C1 witness: on a concrete request with offset 2 and limit 2 served
by a provider returning two features, both pagination links appear with
the stated targets. -/
theorem items_pagination_links_witness :
    ((c1body.links.any (fun l => l.rel == ("prev"))) = true ↔
      0 < (2 : Int)) ∧
    (0 < (2 : Int) →
      prevLink (get_collections_url cfgObs ++ "/" ++ ("obs") ++ "/items")
        (serializedQueryParams reqPage.params) 2 2 ∈ c1body.links) ∧
    ((c1body.links.any (fun l => l.rel == ("next"))) = true ↔
      (c1body.features.length : Int) = 2) ∧
    ((c1body.features.length : Int) = 2 →
      nextLink (get_collections_url cfgObs ++ "/" ++ ("obs") ++ "/items")
        (serializedQueryParams reqPage.params) 2 2 ∈ c1body.links) :=
  items_pagination_links cfgObs envTwo reqPage ("obs") (("obs"), resObs)
    2 2 [] none (pdFeature, provTwo) [] [] (none, none) c1body0 c1body
    (by rfl) (by rfl) (by rfl) (by rfl) (by rfl) (by rfl) (by rfl)
    (by rfl) (by rfl) (by rfl) (by rfl) (by rfl)
    (by decide) (by decide) (by rfl)

/-- Environment whose CQL parse function rejects every filter text. -/
def envNoCql : Env := { envBase with parseEcql := fun _ => none }

/-- Request carrying an invalid filter language and an unparseable
filter. -/
def reqBadFilter : Request :=
  { params := [(("filter-lang"), ("sql")), (("filter"), ("bad("))],
    format := F_JSON, locale := "en", rawLocale := "en", valid := true }

/-- C4 counterexample: with `filter-lang=sql` and an unparseable
`filter`, the response is the 400 `Bad CQL string` error, not the 400
`Invalid filter language` one, because the filter text is parsed before
`filter-lang` is examined. -/
theorem items_filter_lang_counterexample :
    get_collection_items cfgObs envNoCql reqBadFilter ("obs") =
      ItemsRes.err 400 ("InvalidParameterValue") ("Bad CQL string : bad(") ∧
    ¬ get_collection_items cfgObs envNoCql reqBadFilter ("obs") =
      ItemsRes.err 400 ("InvalidParameterValue")
        ("Invalid filter language") := by
  constructor
  · rfl
  · decide

/-- C4 amended: when `filter-lang` is present and differs from
`cql-text`, the response is the 400 `Invalid filter language` error
provided the `filter` parameter is absent or parses; an unparseable
filter answers `Bad CQL string` first. -/
theorem items_filter_lang_amended (cfg : Config) (env : Env)
    (req : Request) (dataset : String) (entry : String × Resource)
    (offset limit : Int) (bbox : List Rat) (dt : Option String)
    (pp : ProviderDef × Provider) (sortby : List SortSpec)
    (selprops : List String) (f : Option CqlFilter) (s : String)
    (hv : req.valid = true)
    (hcol : (collectionsOf cfg).find? (fun e => e.1 == dataset) = some entry)
    (hoff : processOffset req.params = Except.ok offset)
    (hlim : processLimit cfg.serverLimit req.params = Except.ok limit)
    (hbbox : processBbox env req.params = Except.ok bbox)
    (hdt : processDatetime env entry.2.extents req.params = Except.ok dt)
    (hprov : loadProviderStage env entry.2.providers = Except.ok pp)
    (hsort : processSortby req.params pp.2 = Except.ok sortby)
    (hsel : processSelectProperties req.params pp.2 = Except.ok selprops)
    (hcql : processCql env req.params = Except.ok f)
    (hfl : lookupStr req.params ("filter-lang") = some s)
    (hs : ¬ s = ("cql-text")) :
    get_collection_items cfg env req dataset =
      ItemsRes.err 400 ("InvalidParameterValue")
        ("Invalid filter language") := by
  have hffl : processFilterAndLang env req.params =
      Except.error (Abort.exc 400 ("InvalidParameterValue")
        ("Invalid filter language")) := by
    rw [processFilterAndLang, hcql, processFilterLang, hfl]
    simp [hs]
  rw [get_collection_items, hv]
  simp [hcol, hoff, hlim, hbbox, hdt, hprov, hsort, hsel, hffl, itemsAbort]

/-- Request carrying only an invalid filter language. -/
def reqBadLang : Request :=
  { params := [(("filter-lang"), ("sql"))], format := F_JSON,
    locale := "en", rawLocale := "en", valid := true }

/-- C4 witness: `filter-lang=sql` with no filter parameter answers 400
`Invalid filter language`. -/
theorem items_filter_lang_amended_witness :
    get_collection_items cfgObs envBase reqBadLang ("obs") =
      ItemsRes.err 400 ("InvalidParameterValue")
        ("Invalid filter language") :=
  items_filter_lang_amended cfgObs envBase reqBadLang ("obs")
    (("obs"), resObs) 0 10 [] none (pdFeature, provStub) [] [] none ("sql")
    rfl rfl rfl rfl rfl rfl rfl rfl rfl rfl rfl (by decide)

/-- Environment whose datetime validator rejects everything. -/
def envBadDt : Env :=
  { envBase with validateDatetime := fun _ _ =>
      Except.error ("datetime invalid") }

/-- Request carrying a malformed datetime. -/
def reqBadDt : Request :=
  { params := [(("datetime"), ("garbage"))], format := F_JSON,
    locale := "en", rawLocale := "en", valid := true }

/-- The items body returned when the datetime check is skipped. -/
def c5body : ItemsBody :=
  match get_collection_items cfgObs envBadDt reqBadDt ("obs") with
  | ItemsRes.ok b => b
  | _ => emptyBody

/-- C5 counterexample: against a collection that has no `extents`
entry, a malformed `datetime` parameter is not rejected; the raw value
passes through because the `KeyError` on the missing entry is swallowed,
and the request succeeds. -/
theorem items_datetime_counterexample :
    get_collection_items cfgObs envBadDt reqBadDt ("obs") =
      ItemsRes.ok c5body ∧
    (match get_collection_items cfgObs envBadDt reqBadDt ("obs") with
     | ItemsRes.err _ _ _ => False
     | _ => True) := by
  constructor
  · rfl
  · trivial

/-- C5 amended: a datetime rejected by the validator answers a 400
`InvalidParameterValue` with the validator message, for collections
that do declare an `extents` entry; without one the parameter passes
through unvalidated. -/
theorem items_datetime_amended (cfg : Config) (env : Env) (req : Request)
    (dataset : String) (entry : String × Resource) (ext : Extents)
    (msg : String) (offset limit : Int) (bbox : List Rat)
    (hv : req.valid = true)
    (hcol : (collectionsOf cfg).find? (fun e => e.1 == dataset) = some entry)
    (hext : entry.2.extents = some ext)
    (hoff : processOffset req.params = Except.ok offset)
    (hlim : processLimit cfg.serverLimit req.params = Except.ok limit)
    (hbbox : processBbox env req.params = Except.ok bbox)
    (hval : env.validateDatetime ext (lookupStr req.params ("datetime")) =
      Except.error msg) :
    get_collection_items cfg env req dataset =
      ItemsRes.err 400 ("InvalidParameterValue") msg := by
  have hdt : processDatetime env entry.2.extents req.params =
      Except.error (Abort.exc 400 ("InvalidParameterValue") msg) := by
    rw [hext, processDatetime, hval]
  rw [get_collection_items, hv]
  simp [hcol, hoff, hlim, hbbox, hdt, itemsAbort]

/-- An extents entry with an empty spatial bbox and no temporal part. -/
def extStub : Extents :=
  { spatial := { bbox := ConfBbox.single [], crs := none }, temporal := none }

/-- The `obs` collection with a declared extents entry. -/
def resObsExt : Resource := { resObs with extents := some extStub }

/-- Configuration with the extents-bearing collection. -/
def cfgObsExt : Config :=
  { serverUrl := "http://s", serverLimit := 10,
    resources := [(("obs"), resObsExt)] }

/-- C5 witness: with a declared extents entry the rejected datetime is
a 400 with the validator message. -/
theorem items_datetime_amended_witness :
    get_collection_items cfgObsExt envBadDt reqBadDt ("obs") =
      ItemsRes.err 400 ("InvalidParameterValue") ("datetime invalid") :=
  items_datetime_amended cfgObsExt envBadDt reqBadDt ("obs")
    (("obs"), resObsExt) extStub ("datetime invalid") 0 10 []
    rfl rfl rfl rfl rfl rfl rfl

/-- C6 amended: a `ProviderConnectionError` raised while loading the
feature provider or while executing the query is answered with the
generic 500 `connection error (check logs)` body, for items and for
queryables; but in the record fallback path (entered when the feature
capability is unsupported) a connection error propagates uncaught
instead of being mapped to the generic 500. -/
theorem provider_connection_error_handling :
    (∀ (cfg : Config) (env : Env) (req : Request) (dataset : String)
       (entry : String × Resource) (offset limit : Int) (bbox : List Rat)
       (dt : Option String) (pd : ProviderDef),
      req.valid = true →
      (collectionsOf cfg).find? (fun e => e.1 == dataset) = some entry →
      processOffset req.params = Except.ok offset →
      processLimit cfg.serverLimit req.params = Except.ok limit →
      processBbox env req.params = Except.ok bbox →
      processDatetime env entry.2.extents req.params = Except.ok dt →
      get_provider_by_type entry.2.providers ("feature") = some pd →
      env.loadPlugin pd = Except.error LoadErr.connErr →
      get_collection_items cfg env req dataset =
        ItemsRes.err 500 ("NoApplicableCode")
          ("connection error (check logs)")) ∧
    (∀ (cfg : Config) (env : Env) (req : Request) (dataset : String)
       (entry : String × Resource) (offset limit : Int) (bbox : List Rat)
       (dt : Option String) (pp : ProviderDef × Provider)
       (sortby : List SortSpec) (selprops : List String)
       (ffl : Option CqlFilter × Option String),
      req.valid = true →
      (collectionsOf cfg).find? (fun e => e.1 == dataset) = some entry →
      processOffset req.params = Except.ok offset →
      processLimit cfg.serverLimit req.params = Except.ok limit →
      processBbox env req.params = Except.ok bbox →
      processDatetime env entry.2.extents req.params = Except.ok dt →
      loadProviderStage env entry.2.providers = Except.ok pp →
      processSortby req.params pp.2 = Except.ok sortby →
      processSelectProperties req.params pp.2 = Except.ok selprops →
      processFilterAndLang env req.params = Except.ok ffl →
      pp.2.query (mkQueryArgs req env pp.1 pp.2 offset limit bbox dt sortby
        selprops ffl.1) = Except.error ProviderErr.connErr →
      get_collection_items cfg env req dataset =
        ItemsRes.err 500 ("NoApplicableCode")
          ("connection error (check logs)")) ∧
    (∀ (cfg : Config) (env : Env) (req : Request) (dataset : String)
       (entry : String × Resource) (offset limit : Int) (bbox : List Rat)
       (dt : Option String) (pd : ProviderDef),
      req.valid = true →
      (collectionsOf cfg).find? (fun e => e.1 == dataset) = some entry →
      processOffset req.params = Except.ok offset →
      processLimit cfg.serverLimit req.params = Except.ok limit →
      processBbox env req.params = Except.ok bbox →
      processDatetime env entry.2.extents req.params = Except.ok dt →
      get_provider_by_type entry.2.providers ("feature") = none →
      get_provider_by_type entry.2.providers ("record") = some pd →
      env.loadPlugin pd = Except.error LoadErr.connErr →
      get_collection_items cfg env req dataset =
        ItemsRes.raised ("ProviderConnectionError")) ∧
    (∀ (cfg : Config) (env : Env) (req : Request) (d : String)
       (r : Resource) (pd : ProviderDef),
      req.valid = true →
      lookupResource cfg d = some r →
      get_provider_by_type r.providers ("feature") = some pd →
      env.loadPlugin pd = Except.error LoadErr.connErr →
      get_collection_queryables cfg env req (some d) =
        QueryablesRes.err 500 ("NoApplicableCode")
          ("connection error (check logs)")) ∧
    (∀ (cfg : Config) (env : Env) (req : Request) (d : String)
       (r : Resource) (pd : ProviderDef),
      req.valid = true →
      lookupResource cfg d = some r →
      get_provider_by_type r.providers ("feature") = none →
      get_provider_by_type r.providers ("record") = some pd →
      env.loadPlugin pd = Except.error LoadErr.connErr →
      get_collection_queryables cfg env req (some d) =
        QueryablesRes.raised ("ProviderConnectionError")) := by
  refine ⟨?_, ?_, ?_, ?_, ?_⟩
  · intro cfg env req dataset entry offset limit bbox dt pd hv hcol hoff
      hlim hbbox hdt hfeat hplug
    have hload : loadProviderStage env entry.2.providers =
        Except.error (Abort.exc 500 ("NoApplicableCode")
          ("connection error (check logs)")) := by
      simp [loadProviderStage, hfeat, hplug]
    rw [get_collection_items, hv]
    simp [hcol, hoff, hlim, hbbox, hdt, hload, itemsAbort]
  · intro cfg env req dataset entry offset limit bbox dt pp sortby selprops
      ffl hv hcol hoff hlim hbbox hdt hprov hsort hsel hffl hquery
    have hq : runQuery pp.2 (mkQueryArgs req env pp.1 pp.2 offset limit bbox
        dt sortby selprops ffl.1) =
        Except.error (Abort.exc 500 ("NoApplicableCode")
          ("connection error (check logs)")) := by
      rw [runQuery, hquery]
    rw [get_collection_items, hv]
    simp [hcol, hoff, hlim, hbbox, hdt, hprov, hsort, hsel, hffl, hq,
      itemsAbort]
  · intro cfg env req dataset entry offset limit bbox dt pd hv hcol hoff
      hlim hbbox hdt hfeat hrec hplug
    have hload : loadProviderStage env entry.2.providers =
        Except.error (Abort.throw ("ProviderConnectionError")) := by
      simp [loadProviderStage, hfeat, recordFallback, hrec, hplug]
    rw [get_collection_items, hv]
    simp [hcol, hoff, hlim, hbbox, hdt, hload, itemsAbort]
  · intro cfg env req d r pd hv hres hfeat hplug
    have hload : queryablesLoadStage env r.providers =
        Except.error (Abort.exc 500 ("NoApplicableCode")
          ("connection error (check logs)")) := by
      simp [queryablesLoadStage, hfeat, hplug]
    rw [get_collection_queryables, hv]
    simp [hres, hload, queryablesAbort]
  · intro cfg env req d r pd hv hres hfeat hrec hplug
    have hload : queryablesLoadStage env r.providers =
        Except.error (Abort.throw ("ProviderConnectionError")) := by
      simp [queryablesLoadStage, hfeat, queryablesRecordFallback, hrec, hplug]
    rw [get_collection_queryables, hv]
    simp [hres, hload, queryablesAbort]

/-- Environment whose plugin loading raises a connection error. -/
def envConn : Env :=
  { envBase with loadPlugin := fun _ => Except.error LoadErr.connErr }

/-- C6 witness: a connection error while loading the feature provider
of an items request is the generic 500. -/
theorem provider_connection_error_handling_witness :
    get_collection_items cfgObs envConn reqJson ("obs") =
      ItemsRes.err 500 ("NoApplicableCode")
        ("connection error (check logs)") :=
  provider_connection_error_handling.1 cfgObs envConn reqJson ("obs")
    (("obs"), resObs) 0 10 [] none pdFeature
    (by rfl) (by rfl) (by rfl) (by rfl) (by rfl) (by rfl) (by rfl) (by rfl)

/-- A record-only collection over the connection-failing environment;
used to exhibit the uncaught record fallback path concretely. -/
def pdRecord : ProviderDef :=
  { ptype := "record", name := "r", default := true, pformat := none }

/-- A record-only collection. -/
def resRec : Resource := { resObs with providers := [pdRecord] }

/-- Configuration with the record-only collection. -/
def cfgRec : Config :=
  { serverUrl := "http://s", serverLimit := 10,
    resources := [(("rec"), resRec)] }

/-- C6 counterexample: in the record fallback path a connection error
while loading the provider is not mapped to the generic 500 response;
it propagates as an uncaught `ProviderConnectionError`. -/
theorem provider_connection_error_counterexample :
    get_collection_items cfgRec envConn reqJson ("rec") =
      ItemsRes.raised ("ProviderConnectionError") ∧
    ¬ get_collection_items cfgRec envConn reqJson ("rec") =
      ItemsRes.err 500 ("NoApplicableCode")
        ("connection error (check logs)") := by
  constructor
  · rfl
  · decide

/-- A found element is the head of the filtered list. -/
theorem find?_of_filter_eq {α : Type} (p : α → Bool) (l : List α) (x : α)
    (xs : List α) (h : l.filter p = x :: xs) : l.find? p = some x := by
  induction l with
  | nil => simp at h
  | cons a rest ih =>
    rw [List.filter_cons] at h
    by_cases ha : p a = true
    · rw [if_pos ha] at h
      injection h with h1 h2
      rw [List.find?_cons_of_pos _ ha, h1]
    · rw [if_neg ha] at h
      rw [List.find?_cons_of_neg _ ha]
      exact ih h


/-- A hidden collection resource. -/
def resHidden : Resource :=
  { rtype := "collection", title := "H", description := "",
    keywords := [], providers := [pdFeature], extents := none, links := [],
    visibility := some ("hidden") }

/-- Configuration with one hidden collection. -/
def cfgHidden : Config :=
  { serverUrl := "http://s", serverLimit := 10,
    resources := [(("h"), resHidden)] }

/-- C3 counterexample: describing the hidden collection by its own
identifier does not return its metadata; the hidden check runs before
the single-dataset branch, so the handler returns the empty collections
document. -/
theorem hidden_single_describe_counterexample :
    describe_collections cfgHidden envBase reqJson (some ("h")) =
      DescribeRes.okList [] [] ∧
    (match describe_collections cfgHidden envBase reqJson (some ("h")) with
     | DescribeRes.okSingle _ => False
     | _ => True) := by
  constructor
  · rfl
  · trivial

/-- C3 amended: hidden collections are excluded from listings, and the
single-dataset describe path is affected by visibility as well: asking
for a hidden collection by identifier yields the empty collections
document rather than its metadata. -/
theorem hidden_collections_amended :
    (∀ (cfg : Config) (env : Env) (req : Request) (ds : Option String)
       (k : String) (v : Resource) (rest : List (String × Resource))
       (acc : List CollectionDoc),
      (match v.visibility with | none => "default" | some s => s) =
        ("hidden") →
      describeLoop cfg env req ds ((k, v) :: rest) acc =
        describeLoop cfg env req ds rest acc) ∧
    (∀ (cfg : Config) (env : Env) (req : Request) (d : String)
       (res : Resource),
      req.valid = true →
      ¬ req.format = F_HTML →
      ¬ req.format = F_JSONLD →
      (collectionsOf cfg).filter (fun e => e.1 == d) = [(d, res)] →
      (match res.visibility with | none => "default" | some s => s) =
        ("hidden") →
      describe_collections cfg env req (some d) =
        DescribeRes.okList [] []) := by
  constructor
  · intro cfg env req ds k v rest acc hhid
    rw [describeLoop]
    simp [hhid]
  · intro cfg env req d res hv hh hj hfilt hhid
    have hmem : (d, res) ∈ (collectionsOf cfg).filter (fun e => e.1 == d) := by
      rw [hfilt]
      simp
    have hfind : (collectionsOf cfg).find? (fun e => e.1 == d) =
        some (d, res) := find?_of_filter_eq _ _ _ _ hfilt
    rw [describe_collections, hv]
    simp only [Bool.true_eq_false, if_false, hfind, Option.isNone_some,
      Bool.false_eq_true, hfilt]
    rw [describeLoop]
    simp only [hhid, if_true]
    rw [describeLoop]
    simp [finishDescribe, hh, hj]

/-- C3 witness for the amended claim: the hidden collection of the
concrete configuration is dropped from its own single-dataset
describe. -/
theorem hidden_collections_amended_witness :
    describe_collections cfgHidden envBase reqJson (some ("h")) =
      DescribeRes.okList [] [] :=
  hidden_collections_amended.2 cfgHidden envBase reqJson ("h") resHidden
    (by rfl) (by decide) (by decide) (by rfl) (by rfl)

/-- C10: describing a visible collection by its identifier returns the
bare collection document built from its configuration (stopping at the
first matching identifier), not a listing document wrapping it. -/
theorem single_describe_returns_collection (cfg : Config) (env : Env)
    (req : Request) (d : String) (res : Resource) (c : CollectionDoc)
    (hv : req.valid = true)
    (hh : ¬ req.format = F_HTML)
    (hj : ¬ req.format = F_JSONLD)
    (hfilt : (collectionsOf cfg).filter (fun e => e.1 == d) = [(d, res)])
    (hvis : ¬ (match res.visibility with | none => "default" | some s => s) =
      ("hidden"))
    (hbuild : buildCollection cfg env req (some d) d res = Except.ok c) :
    describe_collections cfg env req (some d) = DescribeRes.okSingle c := by
  have hfind : (collectionsOf cfg).find? (fun e => e.1 == d) =
      some (d, res) := find?_of_filter_eq _ _ _ _ hfilt
  rw [describe_collections, hv]
  simp only [Bool.true_eq_false, if_false, hfind, Option.isNone_some,
    Bool.false_eq_true, hfilt]
  rw [describeLoop]
  simp [hvis, hbuild, finishDescribe, hh, hj]

/-- The collection document built for the concrete visible
collection. -/
def c10doc : CollectionDoc :=
  match buildCollection cfgObs envBase reqJson (some ("obs")) ("obs")
    resObs with
  | Except.ok c => c
  | _ =>
    { id := "", title := "", description := "", keywords := [], links := [],
      extent := none, itemType := none, coverageMeta := none,
      parameterNames := none }

/-- C10 witness: the concrete visible collection described by its
identifier is returned as the bare collection document. -/
theorem single_describe_returns_collection_witness :
    describe_collections cfgObs envBase reqJson (some ("obs")) =
      DescribeRes.okSingle c10doc :=
  single_describe_returns_collection cfgObs envBase reqJson ("obs") resObs
    c10doc (by rfl) (by decide) (by decide) (by rfl) (by decide) (by rfl)
